import Mathlib

/-!
Shallow embedding of the blick Vulkan backend core (crates/blick/src/vulkan)
and proofs about its resource caches, allocation policy, descriptor updates,
and the swapchain frame protocol.

Machine integers (u32/u64) are modeled as Nat; every operation the embedded
code performs on them (min, max, comparisons) is monotone and never
overflows in the source, so no modular wrap is needed. Raw driver handles
(vk::Buffer, vk::Image, vk::ImageView, vk::RenderPass, semaphores, ...) are
modeled as Nat identifiers. Driver calls are modeled as emitted actions or
as outcomes parametrized by the driver's reported result.
-/

namespace Blick

/-- Sentinel u32::MAX, used by Vulkan surface capabilities to signal that the
surface does not fix the extent (backend.rs, make_swapchain_extent). -/
def u32Max : Nat := 4294967295

/-- vk::Extent2D. -/
structure Extent2d where
  width : Nat
  height : Nat
deriving DecidableEq, Repr

/-- The fields of vk::SurfaceCapabilitiesKHR read by make_swapchain_extent. -/
structure SurfaceCapabilities where
  currentExtent : Extent2d
  minImageExtent : Extent2d
  maxImageExtent : Extent2d
deriving DecidableEq, Repr

/-- backend.rs, make_swapchain_extent: if the surface reports a fixed current
extent (width is not the u32::MAX sentinel) use it; otherwise clamp the
requested width/height into the reported min/max image extent via
width.max(min).min(max). -/
def make_swapchain_extent (caps : SurfaceCapabilities) (width height : Nat) :
    Extent2d :=
  if caps.currentExtent.width ≠ u32Max then
    caps.currentExtent
  else
    { width := min (max width caps.minImageExtent.width)
        caps.maxImageExtent.width,
      height := min (max height caps.minImageExtent.height)
        caps.maxImageExtent.height }

/-- The swapchain configuration (swapchain.rs, SwapchainDesc); formats,
color spaces and present modes are opaque Nat codes here. -/
structure SwapchainDesc where
  format : Nat
  colorSpace : Nat
  extent : Extent2d
  imageCount : Nat
  presentMode : Nat
deriving DecidableEq, Repr

/-- backend.rs, Backend::resize_swapchain: the new swapchain desc keeps every
field of the old one except the extent, which is recomputed from the freshly
queried surface capabilities and the requested size. -/
def resize_swapchain (desc : SwapchainDesc) (caps : SurfaceCapabilities)
    (width height : Nat) : SwapchainDesc :=
  { desc with extent := make_swapchain_extent caps width height }

/-! ### Buffer/Image allocation (buffer.rs, image.rs) -/

/-- gpu_allocator::MemoryLocation. -/
inductive MemoryLocation where
  | GpuOnly
  | CpuToGpu
  | GpuToCpu
deriving DecidableEq, Repr

/-- BufferUsage bitflags (lib.rs): MAP_READ = 1 << 0. -/
def BufferUsage.MAP_READ : Nat := 1
/-- BufferUsage bitflags (lib.rs): MAP_WRITE = 1 << 1. -/
def BufferUsage.MAP_WRITE : Nat := 2

/-- bitflags contains: self.bits & other.bits == other.bits. -/
def usageContains (usage flag : Nat) : Bool := usage &&& flag = flag

/-- buffer.rs, From<&BufferUsage> for MemoryLocation: MAP_READ prefers
GpuToCpu, else MAP_WRITE prefers CpuToGpu, else GpuOnly. -/
def MemoryLocation.fromBufferUsage (usage : Nat) : MemoryLocation :=
  if usageContains usage BufferUsage.MAP_READ then .GpuToCpu
  else if usageContains usage BufferUsage.MAP_WRITE then .CpuToGpu
  else .GpuOnly

/-- The location/linearity part of gpu_allocator's AllocationCreateDesc. -/
structure AllocationRequest where
  location : MemoryLocation
  linear : Bool
deriving DecidableEq, Repr

/-- buffer.rs, Buffer::new: the allocation request uses the location derived
from the usage flags and is always linear. -/
def bufferAllocationRequest (usage : Nat) : AllocationRequest :=
  { location := MemoryLocation.fromBufferUsage usage, linear := true }

/-- image.rs, Image::new: the allocation request is always GpuOnly and
non-linear (optimal tiling). -/
def imageAllocationRequest : AllocationRequest :=
  { location := .GpuOnly, linear := false }

/-! ### Drop traces for Buffer and Image (buffer.rs, image.rs) -/

/-- Allocator/driver calls performed while dropping a resource. -/
inductive DestroyAction where
  | freeAllocation
  | destroyImageView (view : Nat)
  | destroyImage
  | destroyBuffer
deriving DecidableEq, Repr

/-- The state of an Image relevant to Drop: whether it owns an Allocation
(Image::new yields Some, Image::from_raw yields None) and the raw handles of
the on-demand views it accumulated. -/
structure ImageModel where
  owned : Bool
  views : List Nat
deriving DecidableEq, Repr

/-- image.rs, Image::new: owns its allocation, starts with no views. -/
def Image.new : ImageModel := { owned := true, views := [] }

/-- image.rs, Image::from_raw: wraps a borrowed raw handle, owns no
allocation, starts with no views. -/
def Image.from_raw : ImageModel := { owned := false, views := [] }

/-- image.rs, Image::view: memoized on the view descriptor; creates and
remembers a view only when the descriptor is not already present. -/
def Image.view (img : ImageModel) (viewHandle : Nat) : ImageModel :=
  if viewHandle ∈ img.views then img
  else { img with views := img.views ++ [viewHandle] }

/-- image.rs, impl Drop for Image: destroy every cached view, then — only if
the image owns its allocation — free the allocation and destroy the raw
image, in that order. -/
def Image.drop (img : ImageModel) : List DestroyAction :=
  img.views.map DestroyAction.destroyImageView ++
    (if img.owned then
      [DestroyAction.freeAllocation, DestroyAction.destroyImage]
    else [])

/-- buffer.rs, impl Drop for Buffer: free the allocation back to the
allocator, then destroy the raw buffer. -/
def Buffer.drop : List DestroyAction :=
  [DestroyAction.freeAllocation, DestroyAction.destroyBuffer]

/-! ### Push constants in the pass encoders (command.rs) -/

/-- vk::ShaderStageFlags::VERTEX. -/
def ShaderStage.VERTEX : Nat := 1
/-- vk::ShaderStageFlags::FRAGMENT. -/
def ShaderStage.FRAGMENT : Nat := 16
/-- vk::ShaderStageFlags::COMPUTE. -/
def ShaderStage.COMPUTE : Nat := 32
/-- vk::ShaderStageFlags::ALL_GRAPHICS. -/
def ShaderStage.ALL_GRAPHICS : Nat := 31

/-- Commands recorded into a command buffer that matter here. -/
inductive Cmd where
  | pushConstants (layout : Nat) (stageFlags : Nat) (offset : Nat)
      (data : List Nat)
deriving DecidableEq, Repr

/-- A command buffer is the sequence of commands recorded so far. -/
structure CommandBufferModel where
  cmds : List Cmd
deriving DecidableEq, Repr

/-- The pipeline-layout handle carried by a pipeline. -/
structure PipelineModel where
  pipeline_layout : Nat
deriving DecidableEq, Repr

/-- command.rs, RenderPassEncoder::push_constants: unwraps the active
pipeline (none means the unwrap panics: result none) and records
cmd_push_constants with vk::ShaderStageFlags::COMPUTE. -/
def RenderPassEncoder.push_constants (parent : CommandBufferModel)
    (active_pipeline : Option PipelineModel) (offset : Nat)
    (data : List Nat) : Option CommandBufferModel :=
  match active_pipeline with
  | none => none
  | some p =>
      some { cmds := parent.cmds ++
        [Cmd.pushConstants p.pipeline_layout ShaderStage.COMPUTE offset data] }

/-- command.rs, ComputePassEncoder::push_constants: identical recording with
vk::ShaderStageFlags::COMPUTE. -/
def ComputePassEncoder.push_constants (parent : CommandBufferModel)
    (active_pipeline : Option PipelineModel) (offset : Nat)
    (data : List Nat) : Option CommandBufferModel :=
  match active_pipeline with
  | none => none
  | some p =>
      some { cmds := parent.cmds ++
        [Cmd.pushConstants p.pipeline_layout ShaderStage.COMPUTE offset data] }

/-- The stage-flag mask of the last recorded command, if it is a
push-constant command. -/
def lastPushConstantStage (cb : Option CommandBufferModel) : Option Nat :=
  match cb with
  | none => none
  | some cb =>
      match cb.cmds.getLast? with
      | some (Cmd.pushConstants _ stage _ _) => some stage
      | none => none

/-! ### Descriptor set update (descriptor.rs)

DescriptorSet::update iterates over the entries; for each one it looks the
binding up in the layout map (panicking when absent), pushes a
vk::DescriptorBufferInfo onto the growing buffer_writes Vec and immediately
captures the slice &buffer_writes[index..] into the WriteDescriptorSet it
appends to writes. Only after the loop does one update_descriptor_sets call
hand all writes to the device. We track the buffer_writes Vec with Rust's
RawVec capacity semantics (allocation generation bumps on reallocation,
initial growth to capacity 4 for 24-byte elements, then doubling) so that
each captured slice records the length and allocation generation current at
capture time. -/

/-- One entry of the layout's binding map (vk::DescriptorSetLayoutBinding). -/
structure LayoutBinding where
  binding : Nat
  descriptorType : Nat
  descriptorCount : Nat
  stageFlags : Nat
deriving DecidableEq, Repr

/-- HashMap lookup over the layout's binding map; the map is built by
collecting (binding, info) pairs, so a duplicate binding index keeps the
last pair — hence the scan over the reversed list. -/
def lookupBinding (bindings : List LayoutBinding) (b : Nat) :
    Option LayoutBinding :=
  bindings.reverse.find? (fun lb => decide (lb.binding = b))

/-- DescriptorResource::Buffer fields (lib.rs): raw buffer handle, offset,
range. -/
structure BufferResource where
  buffer : Nat
  offset : Nat
  range : Nat
deriving DecidableEq, Repr

/-- lib.rs, DescriptorResource: Buffer is the only variant. -/
inductive DescriptorResource where
  | buffer (b : BufferResource)
deriving DecidableEq, Repr

/-- lib.rs, Descriptor: a binding index and the resource to bind. -/
structure Descriptor where
  binding : Nat
  resource : DescriptorResource
deriving DecidableEq, Repr

/-- Observable allocation state of a Rust Vec<vk::DescriptorBufferInfo>:
length, capacity, and an allocation generation that bumps every time a push
reallocates the backing storage (invalidating all pointers into it). -/
structure VecState where
  len : Nat
  cap : Nat
  gen : Nat
deriving DecidableEq, Repr

/-- Rust Vec::push growth for 24-byte elements: reallocate when full, first
to capacity 4, then doubling; reallocation bumps the generation. -/
def vecPush (v : VecState) : VecState :=
  if v.len < v.cap then { v with len := v.len + 1 }
  else { len := v.len + 1, cap := max (v.cap * 2) 4, gen := v.gen + 1 }

/-- A WriteDescriptorSet as assembled inside the update loop. dstSet is the
set's raw handle; bufferInfoIndex is the start of the captured slice
&buffer_writes[index..]; capturedLen and capturedGen record the length and
the allocation generation of buffer_writes at the moment the slice
reference was taken. -/
structure WriteRecord where
  dstSet : Nat
  dstBinding : Nat
  descriptorType : Nat
  bufferInfoIndex : Nat
  capturedLen : Nat
  capturedGen : Nat
deriving DecidableEq, Repr

/-- The loop body of DescriptorSet::update: Except.error b models the
panic "Binding b not found in descriptor set" (a process abort, which
issues nothing to the device). -/
def updateLoop (dstSet : Nat) (bindings : List LayoutBinding)
    (entries : List Descriptor) (writes : List WriteRecord)
    (bufferWrites : VecState) :
    Except Nat (List WriteRecord × VecState) :=
  match entries with
  | [] => Except.ok (writes, bufferWrites)
  | e :: rest =>
      match lookupBinding bindings e.binding with
      | none => Except.error e.binding
      | some bi =>
          match e.resource with
          | .buffer _ =>
              let index := bufferWrites.len
              let bufferWrites := vecPush bufferWrites
              let w : WriteRecord :=
                { dstSet := dstSet, dstBinding := e.binding,
                  descriptorType := bi.descriptorType,
                  bufferInfoIndex := index,
                  capturedLen := bufferWrites.len,
                  capturedGen := bufferWrites.gen }
              updateLoop dstSet bindings rest (writes ++ [w]) bufferWrites

/-- Possible outcomes of DescriptorSet::update. The Rust signature is
anyhow::Result<()>: err is the recoverable error return the signature
allows (never produced by the body), panicked is the process abort raised
by the panic! on a missing binding, and ok carries the writes handed to
update_descriptor_sets plus the final state of buffer_writes. -/
inductive UpdateOutcome where
  | ok (deviceWrites : List WriteRecord) (bufferWrites : VecState)
  | err (binding : Nat)
  | panicked (binding : Nat)
deriving DecidableEq, Repr

/-- descriptor.rs, DescriptorSet::update. -/
def DescriptorSet.update (dstSet : Nat) (bindings : List LayoutBinding)
    (entries : List Descriptor) : UpdateOutcome :=
  match updateLoop dstSet bindings entries [] { len := 0, cap := 0, gen := 0 } with
  | Except.ok (ws, bw) => .ok ws bw
  | Except.error b => .panicked b

/-- Writes issued to the device by an update call: the single
update_descriptor_sets call happens only after the loop completed, so a
panicking or erroring update issues none. -/
def deviceWritesIssued : UpdateOutcome → List WriteRecord
  | .ok ws _ => ws
  | .err _ => []
  | .panicked _ => []

/-- The final state of the buffer_writes Vec at the moment
update_descriptor_sets consumes the assembled writes. -/
def finalBufferWrites : UpdateOutcome → Option VecState
  | .ok _ bw => some bw
  | .err _ => none
  | .panicked _ => none

/-! ### Frame protocol (backend.rs, swapchain.rs) -/

/-- The driver results distinguished by the acquire/present code paths. -/
inductive VkResult where
  | success
  | errorOutOfDateKhr
  | otherError
deriving DecidableEq, Repr

/-- swapchain.rs, Swapchain::acquire_next_image: success yields the image,
ERROR_OUT_OF_DATE_KHR becomes an anyhow error return, anything else
panics. -/
inductive AcquireOutcome where
  | ok (imageIndex : Nat)
  | errOutdated
  | panicked
deriving DecidableEq, Repr

/-- swapchain.rs, Swapchain::acquire_next_image, parametrized by the
driver's result and the image index it would deliver on success. -/
def Swapchain.acquire_next_image (driver : VkResult) (index : Nat) :
    AcquireOutcome :=
  match driver with
  | .success => .ok index
  | .errorOutOfDateKhr => .errOutdated
  | .otherError => .panicked

/-- lib.rs, BeginFrameError: OutdatedSwapchain is the only variant. -/
inductive BeginFrameError where
  | outdatedSwapchain
deriving DecidableEq, Repr

/-- lib.rs, EndFrameError: OutdatedSwapchain is the only variant. -/
inductive EndFrameError where
  | outdatedSwapchain
deriving DecidableEq, Repr

/-- backend.rs, Frame: the two per-frame semaphores and the acquired
swapchain image index. -/
structure FrameModel where
  image_available : Nat
  render_finished : Nat
  swapchainImageIndex : Nat
deriving DecidableEq, Repr

/-- Outcome of Backend::begin_frame: a typed error return is distinct from
a process abort (panicked). -/
inductive BeginFrameOutcome where
  | ok (frame : FrameModel)
  | err (e : BeginFrameError)
  | panicked
deriving DecidableEq, Repr

/-- backend.rs, Backend::begin_frame: create the two fresh semaphores, then
acquire; any acquire error return becomes Err(OutdatedSwapchain), a panic
propagates. -/
def Backend.begin_frame (semImageAvailable semRenderFinished : Nat)
    (driverAcquire : VkResult) (index : Nat) : BeginFrameOutcome :=
  match Swapchain.acquire_next_image driverAcquire index with
  | .ok i => .ok { image_available := semImageAvailable,
                   render_finished := semRenderFinished,
                   swapchainImageIndex := i }
  | .errOutdated => .err .outdatedSwapchain
  | .panicked => .panicked

/-- Queue-level work observable from Backend::end_frame. -/
inductive DeviceAction where
  | submit (commandBuffers : List Nat)
  | present (imageIndex : Nat) (waitSemaphore : Nat)
  | waitIdle
deriving DecidableEq, Repr

/-- Outcome of Swapchain::present_image: Ok, the typed Outdated error, or a
panic on any other driver result. -/
inductive PresentOutcome where
  | ok
  | errOutdated
  | panicked
deriving DecidableEq, Repr

/-- swapchain.rs, Swapchain::present_image: one queue_present call waiting
on the render-finished semaphore; OUT_OF_DATE becomes
Err(SwapchainError::Outdated), other failures panic. -/
def Swapchain.present_image (driver : VkResult) (imageIndex : Nat)
    (renderFinished : Nat) : PresentOutcome × DeviceAction :=
  match driver with
  | .success => (.ok, .present imageIndex renderFinished)
  | .errorOutOfDateKhr => (.errOutdated, .present imageIndex renderFinished)
  | .otherError => (.panicked, .present imageIndex renderFinished)

/-- Outcome of Backend::end_frame. -/
inductive EndFrameOutcome where
  | ok
  | err (e : EndFrameError)
  | panicked
deriving DecidableEq, Repr

/-- backend.rs, Backend::end_frame: present the acquired image waiting on
the frame's render-finished semaphore; on Outdated return the typed error
immediately, otherwise wait_idle and return Ok. The second component is the
sequence of device actions performed by the call itself. -/
def Backend.end_frame (frame : FrameModel) (driverPresent : VkResult) :
    EndFrameOutcome × List DeviceAction :=
  match Swapchain.present_image driverPresent frame.swapchainImageIndex
      frame.render_finished with
  | (.ok, act) => (.ok, [act, .waitIdle])
  | (.errOutdated, act) => (.err .outdatedSwapchain, [act])
  | (.panicked, act) => (.panicked, [act])

/-! ### LRU caches for render passes and framebuffers
(render_pass.rs, framebuffer.rs, device.rs)

Both caches are lru::LruCache<Key, Arc<Inner>> guarded by a mutex. A cache
is modeled as the list of (key, object id) entries in most-recently-used
order plus the fixed capacity and a counter supplying fresh object
identities (Arc identities: two handles refer to the same underlying driver
object exactly when they carry the same id). get_or_insert promotes a hit
to the MRU position and returns the stored Arc; on a miss it constructs a
new object, inserts it at the MRU position and evicts the LRU entry when
the cache would exceed capacity. -/

/-- device.rs: RENDER_PASS_CACHE_SIZE. -/
def RENDER_PASS_CACHE_SIZE : Nat := 16
/-- device.rs: FRAMEBUFFER_CACHE_SIZE. -/
def FRAMEBUFFER_CACHE_SIZE : Nat := 16

/-- An lru::LruCache with entries in MRU-first order. -/
structure LruCache (K : Type) where
  entries : List (K × Nat)
  cap : Nat
  nextId : Nat
deriving Repr

/-- A fresh, empty cache; lru::LruCache::new(NonZeroUsize) requires a
positive capacity. -/
def LruCache.new (K : Type) (cap : Nat) : LruCache K :=
  { entries := [], cap := cap, nextId := 0 }

/-- lru::LruCache::get_or_insert: on a hit move the entry to the MRU head
and return its object; on a miss construct a fresh object, insert it at the
head and truncate to capacity (evicting the LRU tail entry). -/
def LruCache.get_or_insert {K : Type} [DecidableEq K] (c : LruCache K)
    (k : K) : Nat × LruCache K :=
  match c.entries.find? (fun p => decide (p.1 = k)) with
  | some p =>
      (p.2, { c with
        entries := p :: c.entries.eraseP (fun q => decide (q.1 = k)) })
  | none =>
      (c.nextId,
       { entries := ((k, c.nextId) :: c.entries).take c.cap,
         cap := c.cap, nextId := c.nextId + 1 })

/-- Run get_or_insert over a list of keys in order, collecting the returned
object ids. -/
def LruCache.getAll {K : Type} [DecidableEq K] (c : LruCache K)
    (ks : List K) : List Nat × LruCache K :=
  match ks with
  | [] => ([], c)
  | k :: rest =>
      let r := c.get_or_insert k
      let rs := r.2.getAll rest
      (r.1 :: rs.1, rs.2)

/-- True when the cache still holds a reference to the object. -/
def LruCache.holds {K : Type} (c : LruCache K) (id : Nat) : Bool :=
  c.entries.any (fun p => decide (p.2 = id))

/-- Arc strong count of a cached object: one reference from the cache while
the entry is resident, plus one per handle still held outside. The
underlying driver object is destroyed exactly when this reaches zero. -/
def refCount {K : Type} (c : LruCache K) (externalHandles : List Nat)
    (id : Nat) : Nat :=
  (if c.holds id then 1 else 0) + externalHandles.count id

/-- lib.rs, ColorAttachmentDesc: format and layout (opaque codes). -/
structure ColorAttachmentDesc where
  format : Nat
  layout : Nat
deriving DecidableEq, Repr

/-- render_pass.rs, RenderPassKey: the structural key derived from a
render-pass descriptor. -/
structure RenderPassKey where
  color_attachments : List (Option ColorAttachmentDesc)
deriving DecidableEq, Repr

/-- lib.rs, RenderPassDesc. -/
structure RenderPassDesc where
  color_attachments : List (Option ColorAttachmentDesc)
deriving DecidableEq, Repr

/-- render_pass.rs, From<&RenderPassDesc> for RenderPassKey: copies each
color attachment into the key. -/
def RenderPassKey.fromDesc (d : RenderPassDesc) : RenderPassKey :=
  { color_attachments := d.color_attachments }

/-- render_pass.rs, RenderPassCache::get_or_create: derive the structural
key and defer to the LRU cache. -/
def RenderPassCache.get_or_create (c : LruCache RenderPassKey)
    (d : RenderPassDesc) : Nat × LruCache RenderPassKey :=
  c.get_or_insert (RenderPassKey.fromDesc d)

/-- Run RenderPassCache::get_or_create over descriptors in order. -/
def RenderPassCache.getAll (c : LruCache RenderPassKey)
    (ds : List RenderPassDesc) : List Nat × LruCache RenderPassKey :=
  c.getAll (ds.map RenderPassKey.fromDesc)

/-- framebuffer.rs, FramebufferKey: image-view identities, render-pass
identity, extent and layer count. -/
structure FramebufferKey where
  attachments : List Nat
  render_pass : Nat
  width : Nat
  height : Nat
  layers : Nat
deriving DecidableEq, Repr

/-- lib.rs, FramebufferDesc: the render pass handle, the attachment
image-view handles and the extent. -/
structure FramebufferDesc where
  render_pass : Nat
  attachments : List Nat
  extent : Extent2d
deriving DecidableEq, Repr

/-- framebuffer.rs, From<&FramebufferDesc> for FramebufferKey: collect the
raw image-view handles, the raw render-pass handle, the extent, and a fixed
layer count of 1. -/
def FramebufferKey.fromDesc (d : FramebufferDesc) : FramebufferKey :=
  { attachments := d.attachments, render_pass := d.render_pass,
    width := d.extent.width, height := d.extent.height, layers := 1 }

/-- framebuffer.rs, FramebufferCache::get_or_create. -/
def FramebufferCache.get_or_create (c : LruCache FramebufferKey)
    (d : FramebufferDesc) : Nat × LruCache FramebufferKey :=
  c.get_or_insert (FramebufferKey.fromDesc d)

/-- A family of pairwise distinct render-pass descriptors used to exercise
the cache eviction scenario on concrete inputs. -/
def sampleDesc (i : Nat) : RenderPassDesc :=
  { color_attachments := [some { format := i, layout := 0 }] }

/-! ## Theorems -/

/-- C5: resize_swapchain recomputes the extent; without a fixed current
extent the result is the request clamped component-wise into the
min/max image extent (exactly the request when it is inside the bounds);
with a fixed current extent (width differs from the u32::MAX sentinel)
that extent is used instead. -/
theorem resize_extent_clamping (caps : SurfaceCapabilities) (w h : Nat)
    (desc : SwapchainDesc) :
    (caps.currentExtent.width = u32Max →
      (resize_swapchain desc caps w h).extent =
        { width := min (max w caps.minImageExtent.width)
            caps.maxImageExtent.width,
          height := min (max h caps.minImageExtent.height)
            caps.maxImageExtent.height }) ∧
    (caps.currentExtent.width = u32Max →
      caps.minImageExtent.width ≤ w → w ≤ caps.maxImageExtent.width →
      caps.minImageExtent.height ≤ h → h ≤ caps.maxImageExtent.height →
      (resize_swapchain desc caps w h).extent = { width := w, height := h }) ∧
    (caps.currentExtent.width ≠ u32Max →
      (resize_swapchain desc caps w h).extent = caps.currentExtent) := by
  refine ⟨fun hfix => ?_, fun hfix hw1 hw2 hh1 hh2 => ?_, fun hfix => ?_⟩
  · simp [resize_swapchain, make_swapchain_extent, hfix]
  · simp only [resize_swapchain, make_swapchain_extent, hfix, ne_eq,
      not_true_eq_false, if_false, Extent2d.mk.injEq]
    omega
  · simp [resize_swapchain, make_swapchain_extent, hfix]

/-- C5 witness: a concrete surface without a fixed extent and an in-bounds
request of 500x400 yields exactly 500x400. -/
theorem resize_extent_clamping_witness :
    (resize_swapchain
      { format := 44, colorSpace := 0,
        extent := { width := 1, height := 1 }, imageCount := 3,
        presentMode := 2 }
      { currentExtent := { width := 4294967295, height := 7 },
        minImageExtent := { width := 100, height := 100 },
        maxImageExtent := { width := 1000, height := 1000 } }
      500 400).extent = { width := 500, height := 400 } :=
  (resize_extent_clamping
      { currentExtent := { width := 4294967295, height := 7 },
        minImageExtent := { width := 100, height := 100 },
        maxImageExtent := { width := 1000, height := 1000 } }
      500 400
      { format := 44, colorSpace := 0,
        extent := { width := 1, height := 1 }, imageCount := 3,
        presentMode := 2 }).2.1
    (by decide) (by decide) (by decide) (by decide) (by decide)

/-- C6: the buffer allocation's memory location follows the usage flags
(host-read mapping prefers GpuToCpu, else host-write mapping prefers
CpuToGpu, else GpuOnly), buffer allocations are always linear, and image
allocations are always GpuOnly and non-linear. -/
theorem allocation_location_policy (usage : Nat) :
    (usageContains usage BufferUsage.MAP_READ = true →
      (bufferAllocationRequest usage).location = .GpuToCpu) ∧
    (usageContains usage BufferUsage.MAP_READ = false →
      usageContains usage BufferUsage.MAP_WRITE = true →
      (bufferAllocationRequest usage).location = .CpuToGpu) ∧
    (usageContains usage BufferUsage.MAP_READ = false →
      usageContains usage BufferUsage.MAP_WRITE = false →
      (bufferAllocationRequest usage).location = .GpuOnly) ∧
    (bufferAllocationRequest usage).linear = true ∧
    imageAllocationRequest.location = .GpuOnly ∧
    imageAllocationRequest.linear = false := by
  refine ⟨fun h => ?_, fun h1 h2 => ?_, fun h1 h2 => ?_, rfl, rfl, rfl⟩
  · simp [bufferAllocationRequest, MemoryLocation.fromBufferUsage, h]
  · simp [bufferAllocationRequest, MemoryLocation.fromBufferUsage, h1, h2]
  · simp [bufferAllocationRequest, MemoryLocation.fromBufferUsage, h1, h2]

/-- C6 witness: a MAP_READ|MAP_WRITE usage allocates GpuToCpu, and a
MAP_WRITE-only usage allocates CpuToGpu. -/
theorem allocation_location_policy_witness :
    (bufferAllocationRequest 3).location = .GpuToCpu ∧
    (bufferAllocationRequest 2).location = .CpuToGpu :=
  ⟨(allocation_location_policy 3).1 (by decide),
   (allocation_location_policy 2).2.1 (by decide) (by decide)⟩

/-- C7: dropping a borrowed Image (from_raw, no owned allocation) never
frees an allocation and never destroys the raw image but still destroys
every cached view; dropping an owned Image or a Buffer frees its
allocation exactly once, strictly before the single destruction of the raw
driver object. Image::from_raw is what produces the borrowed state,
Image::new the owned one, and on-demand view creation preserves it. -/
theorem resource_destruction_order (vs : List Nat) :
    DestroyAction.freeAllocation ∉ Image.drop { owned := false, views := vs } ∧
    DestroyAction.destroyImage ∉ Image.drop { owned := false, views := vs } ∧
    (∀ v ∈ vs, DestroyAction.destroyImageView v ∈
      Image.drop { owned := false, views := vs }) ∧
    (Image.drop { owned := true, views := vs }).count .freeAllocation = 1 ∧
    (Image.drop { owned := true, views := vs }).count .destroyImage = 1 ∧
    (∃ i j : Nat, i < j ∧
      (Image.drop { owned := true, views := vs })[i]? =
        some DestroyAction.freeAllocation ∧
      (Image.drop { owned := true, views := vs })[j]? =
        some DestroyAction.destroyImage) ∧
    Buffer.drop.count .freeAllocation = 1 ∧
    (∃ i j : Nat, i < j ∧ Buffer.drop[i]? = some DestroyAction.freeAllocation ∧
      Buffer.drop[j]? = some DestroyAction.destroyBuffer) ∧
    Image.from_raw.owned = false ∧
    Image.new.owned = true ∧
    (∀ img v, (Image.view img v).owned = img.owned) := by
  refine ⟨?_, ?_, ?_, ?_, ?_, ?_, by decide, ?_, rfl, rfl, ?_⟩
  · simp [Image.drop]
  · simp [Image.drop]
  · intro v hv
    simp only [Image.drop, List.mem_append, List.mem_map]
    exact Or.inl ⟨v, hv, rfl⟩
  · simp [Image.drop, List.count_append, List.count_cons,
      List.count_eq_zero, List.mem_map]
  · simp [Image.drop, List.count_append, List.count_cons,
      List.count_eq_zero, List.mem_map]
  · refine ⟨vs.length, vs.length + 1, Nat.lt_succ_self _, ?_, ?_⟩
    · rw [Image.drop, if_pos rfl,
        List.getElem?_append_right (by simp)]
      simp
    · rw [Image.drop, if_pos rfl,
        List.getElem?_append_right (by simp)]
      simp
  · exact ⟨0, 1, by decide, by decide, by decide⟩
  · intro img v
    by_cases hv : v ∈ img.views <;> simp [Image.view, hv]

/-- C7 witness: concrete borrowed image with two views and owned image with
two views. -/
theorem resource_destruction_order_witness :
    DestroyAction.freeAllocation ∉ Image.drop { owned := false, views := [5, 9] } ∧
    DestroyAction.destroyImageView 9 ∈ Image.drop { owned := false, views := [5, 9] } ∧
    (Image.drop { owned := true, views := [5, 9] }).count .freeAllocation = 1 :=
  ⟨(resource_destruction_order [5, 9]).1,
   (resource_destruction_order [5, 9]).2.2.1 9 (by decide),
   (resource_destruction_order [5, 9]).2.2.2.1⟩

/-- C10: RenderPassEncoder::push_constants records its push-constant
command with the COMPUTE shader-stage mask — the very same recording that
ComputePassEncoder::push_constants produces — and COMPUTE shares no bit
with any graphics stage mask. -/
theorem render_push_constants_compute_stage (parent : CommandBufferModel)
    (p : PipelineModel) (offset : Nat) (data : List Nat) :
    lastPushConstantStage
        (RenderPassEncoder.push_constants parent (some p) offset data) =
      some ShaderStage.COMPUTE ∧
    RenderPassEncoder.push_constants parent (some p) offset data =
      ComputePassEncoder.push_constants parent (some p) offset data ∧
    ShaderStage.COMPUTE &&& ShaderStage.ALL_GRAPHICS = 0 := by
  refine ⟨?_, rfl, by decide⟩
  simp [RenderPassEncoder.push_constants, lastPushConstantStage]

/-- C8: begin_frame returns its typed error exactly when the driver reports
the surface out of date at acquisition, end_frame exactly when it does so
at presentation; other driver failures abort instead of returning, and
OutdatedSwapchain is the only value either error type can take. -/
theorem frame_errors_outdated_iff (semA semB index : Nat) (d : VkResult)
    (f : FrameModel) :
    ((∃ e, Backend.begin_frame semA semB d index = .err e) ↔
      d = .errorOutOfDateKhr) ∧
    Backend.begin_frame semA semB .errorOutOfDateKhr index =
      .err .outdatedSwapchain ∧
    Backend.begin_frame semA semB .otherError index = .panicked ∧
    ((Backend.end_frame f d).1 = .err .outdatedSwapchain ↔
      d = .errorOutOfDateKhr) ∧
    (Backend.end_frame f .otherError).1 = .panicked ∧
    (∀ e : BeginFrameError, e = .outdatedSwapchain) ∧
    (∀ e : EndFrameError, e = .outdatedSwapchain) := by
  refine ⟨?_, rfl, rfl, ?_, rfl, fun e => ?_, fun e => ?_⟩
  · cases d <;> simp [Backend.begin_frame, Swapchain.acquire_next_image]
    exact ⟨.outdatedSwapchain, trivial⟩
  · cases d <;>
      simp [Backend.end_frame, Swapchain.present_image]
  · cases e
    rfl
  · cases e
    rfl

/-- C8 witness: a concrete out-of-date acquisition and presentation both
surface as the typed OutdatedSwapchain error. -/
theorem frame_errors_outdated_iff_witness :
    Backend.begin_frame 1 2 .errorOutOfDateKhr 0 = .err .outdatedSwapchain ∧
    (Backend.end_frame
      { image_available := 1, render_finished := 2, swapchainImageIndex := 0 }
      .errorOutOfDateKhr).1 = .err .outdatedSwapchain :=
  ⟨(frame_errors_outdated_iff 1 2 0 .errorOutOfDateKhr
      { image_available := 1, render_finished := 2,
        swapchainImageIndex := 0 }).2.1,
   (frame_errors_outdated_iff 1 2 0 .errorOutOfDateKhr
      { image_available := 1, render_finished := 2,
        swapchainImageIndex := 0 }).2.2.2.1.mpr rfl⟩

/-- C9 counterexample: when presentation reports out-of-date, end_frame
returns (with the typed error) without ever blocking on device idle, so
"every call blocks until all device work completes before returning" is
false on this input. -/
theorem end_frame_outdated_counterexample :
    (Backend.end_frame
      { image_available := 1, render_finished := 2, swapchainImageIndex := 0 }
      .errorOutOfDateKhr).1 = .err .outdatedSwapchain ∧
    DeviceAction.waitIdle ∉ (Backend.end_frame
      { image_available := 1, render_finished := 2, swapchainImageIndex := 0 }
      .errorOutOfDateKhr).2 := by decide

/-- C9 amended: every end_frame call presents the acquired image first,
waiting on the frame's render-finished semaphore, and never submits a
command buffer; when presentation succeeds it blocks on device idle after
the present and before returning Ok. (When presentation reports
out-of-date the call returns the typed error without the device-wide
wait.) -/
theorem end_frame_present_then_wait (f : FrameModel) (d : VkResult) :
    (Backend.end_frame f d).2.head? =
      some (.present f.swapchainImageIndex f.render_finished) ∧
    (∀ cbs, DeviceAction.submit cbs ∉ (Backend.end_frame f d).2) ∧
    (d = .success → (Backend.end_frame f d).1 = .ok ∧
      (Backend.end_frame f d).2 =
        [.present f.swapchainImageIndex f.render_finished, .waitIdle]) := by
  refine ⟨?_, fun cbs => ?_, fun hd => ?_⟩
  · cases d <;> simp [Backend.end_frame, Swapchain.present_image]
  · cases d <;> simp [Backend.end_frame, Swapchain.present_image]
  · subst hd
    exact ⟨rfl, rfl⟩

/-- C9 witness: a concrete successful presentation presents waiting on the
render-finished semaphore 2 and then waits for device idle. -/
theorem end_frame_present_then_wait_witness :
    (Backend.end_frame
      { image_available := 1, render_finished := 2, swapchainImageIndex := 0 }
      .success).2 = [.present 0 2, .waitIdle] :=
  ((end_frame_present_then_wait
    { image_available := 1, render_finished := 2, swapchainImageIndex := 0 }
    .success).2.2 rfl).2

/-- Helper for C1: when the entry list contains a binding absent from the
layout, the update loop aborts with the panic for the first such binding,
whatever has been accumulated so far. -/
theorem updateLoop_missing {dstSet : Nat} {bindings : List LayoutBinding}
    (entries : List Descriptor) (e : Descriptor)
    (h : entries.find?
      (fun e => (lookupBinding bindings e.binding).isNone) = some e) :
    ∀ (writes : List WriteRecord) (bw : VecState),
      updateLoop dstSet bindings entries writes bw =
        Except.error e.binding := by
  induction entries with
  | nil => simp at h
  | cons e0 rest ih =>
      intro writes bw
      rw [List.find?_cons] at h
      cases hlook : lookupBinding bindings e0.binding with
      | none =>
          rw [hlook] at h
          simp at h
          subst h
          simp [updateLoop, hlook]
      | some bi =>
          rw [hlook] at h
          simp at h
          cases hres : e0.resource with
          | buffer b =>
              simp [updateLoop, hlook, hres, ih h]

/-- C1 counterexample: a set whose layout has only binding 0, updated with
an entry for binding 1, aborts the process via panic — it does not return
the recoverable error result the claim requires. -/
theorem descriptor_update_not_error_result :
    DescriptorSet.update 3
      [{ binding := 0, descriptorType := 6, descriptorCount := 1,
         stageFlags := 32 }]
      [{ binding := 1,
         resource := .buffer { buffer := 7, offset := 0, range := 16 } }] =
      .panicked 1 ∧
    ∀ b, DescriptorSet.update 3
      [{ binding := 0, descriptorType := 6, descriptorCount := 1,
         stageFlags := 32 }]
      [{ binding := 1,
         resource := .buffer { buffer := 7, offset := 0, range := 16 } }] ≠
      .err b := by
  exact ⟨by decide, fun b => by simp [DescriptorSet.update, updateLoop,
    lookupBinding, List.find?]⟩

/-- C1 amended: updating with any entry whose binding is absent from the
layout aborts via the "binding not found" panic naming the first such
binding (a process abort, not an error return), and performs no partial
update — no write for any entry reaches the device. -/
theorem descriptor_update_missing_binding (dstSet : Nat)
    (bindings : List LayoutBinding) (entries : List Descriptor)
    (e : Descriptor)
    (h : entries.find?
      (fun e => (lookupBinding bindings e.binding).isNone) = some e) :
    DescriptorSet.update dstSet bindings entries = .panicked e.binding ∧
    deviceWritesIssued (DescriptorSet.update dstSet bindings entries) =
      [] := by
  have hrun := @updateLoop_missing dstSet bindings entries e h
    [] { len := 0, cap := 0, gen := 0 }
  rw [DescriptorSet.update, hrun]
  exact ⟨rfl, rfl⟩

/-- C1 witness: the concrete missing-binding update panics with binding 1
and issues nothing. -/
theorem descriptor_update_missing_binding_witness :
    DescriptorSet.update 3
      [{ binding := 0, descriptorType := 6, descriptorCount := 1,
         stageFlags := 32 }]
      [{ binding := 0,
         resource := .buffer { buffer := 5, offset := 0, range := 4 } },
       { binding := 2,
         resource := .buffer { buffer := 7, offset := 0, range := 16 } }] =
      .panicked 2 ∧
    deviceWritesIssued (DescriptorSet.update 3
      [{ binding := 0, descriptorType := 6, descriptorCount := 1,
         stageFlags := 32 }]
      [{ binding := 0,
         resource := .buffer { buffer := 5, offset := 0, range := 4 } },
       { binding := 2,
         resource := .buffer { buffer := 7, offset := 0, range := 16 } }]) =
      [] :=
  descriptor_update_missing_binding 3
    [{ binding := 0, descriptorType := 6, descriptorCount := 1,
       stageFlags := 32 }]
    [{ binding := 0,
       resource := .buffer { buffer := 5, offset := 0, range := 4 } },
     { binding := 2,
       resource := .buffer { buffer := 7, offset := 0, range := 16 } }]
    { binding := 2,
      resource := .buffer { buffer := 7, offset := 0, range := 16 } }
    (by decide)

/-- C2: evaluating DescriptorSet::update on five buffer entries (all
bindings present) shows every slice reference was captured while
buffer_writes could still grow (captured lengths 1..5 against a final
length of 5) and that the Vec reallocated after the first four captures
(their allocation generation 1 differs from the final generation 2), so
the first four WriteDescriptorSets hold pointers into freed storage —
refuting the claim's description of the implementation at this input. -/
theorem descriptor_update_dangling_slice :
    (deviceWritesIssued (DescriptorSet.update 3
      [{ binding := 0, descriptorType := 6, descriptorCount := 1,
         stageFlags := 32 },
       { binding := 1, descriptorType := 6, descriptorCount := 1,
         stageFlags := 32 },
       { binding := 2, descriptorType := 6, descriptorCount := 1,
         stageFlags := 32 },
       { binding := 3, descriptorType := 6, descriptorCount := 1,
         stageFlags := 32 },
       { binding := 4, descriptorType := 6, descriptorCount := 1,
         stageFlags := 32 }]
      [{ binding := 0,
         resource := .buffer { buffer := 10, offset := 0, range := 4 } },
       { binding := 1,
         resource := .buffer { buffer := 11, offset := 0, range := 4 } },
       { binding := 2,
         resource := .buffer { buffer := 12, offset := 0, range := 4 } },
       { binding := 3,
         resource := .buffer { buffer := 13, offset := 0, range := 4 } },
       { binding := 4,
         resource := .buffer { buffer := 14, offset := 0, range := 4 } }])
      ).map WriteRecord.capturedLen = [1, 2, 3, 4, 5] ∧
    (deviceWritesIssued (DescriptorSet.update 3
      [{ binding := 0, descriptorType := 6, descriptorCount := 1,
         stageFlags := 32 },
       { binding := 1, descriptorType := 6, descriptorCount := 1,
         stageFlags := 32 },
       { binding := 2, descriptorType := 6, descriptorCount := 1,
         stageFlags := 32 },
       { binding := 3, descriptorType := 6, descriptorCount := 1,
         stageFlags := 32 },
       { binding := 4, descriptorType := 6, descriptorCount := 1,
         stageFlags := 32 }]
      [{ binding := 0,
         resource := .buffer { buffer := 10, offset := 0, range := 4 } },
       { binding := 1,
         resource := .buffer { buffer := 11, offset := 0, range := 4 } },
       { binding := 2,
         resource := .buffer { buffer := 12, offset := 0, range := 4 } },
       { binding := 3,
         resource := .buffer { buffer := 13, offset := 0, range := 4 } },
       { binding := 4,
         resource := .buffer { buffer := 14, offset := 0, range := 4 } }])
      ).map WriteRecord.capturedGen = [1, 1, 1, 1, 2] ∧
    finalBufferWrites (DescriptorSet.update 3
      [{ binding := 0, descriptorType := 6, descriptorCount := 1,
         stageFlags := 32 },
       { binding := 1, descriptorType := 6, descriptorCount := 1,
         stageFlags := 32 },
       { binding := 2, descriptorType := 6, descriptorCount := 1,
         stageFlags := 32 },
       { binding := 3, descriptorType := 6, descriptorCount := 1,
         stageFlags := 32 },
       { binding := 4, descriptorType := 6, descriptorCount := 1,
         stageFlags := 32 }]
      [{ binding := 0,
         resource := .buffer { buffer := 10, offset := 0, range := 4 } },
       { binding := 1,
         resource := .buffer { buffer := 11, offset := 0, range := 4 } },
       { binding := 2,
         resource := .buffer { buffer := 12, offset := 0, range := 4 } },
       { binding := 3,
         resource := .buffer { buffer := 13, offset := 0, range := 4 } },
       { binding := 4,
         resource := .buffer { buffer := 14, offset := 0, range := 4 } }]) =
      some { len := 5, cap := 8, gen := 2 } := by
  refine ⟨by decide, by decide, by decide⟩

/-- Helper for C3: asking a positive-capacity LRU cache for the same key
twice in a row yields the same stored object, whether the first call hit
or missed. -/
theorem LruCache.get_or_insert_twice {K : Type} [DecidableEq K]
    (c : LruCache K) (hcap : 1 ≤ c.cap) (k : K) :
    ((c.get_or_insert k).2.get_or_insert k).1 = (c.get_or_insert k).1 := by
  rcases hfind : c.entries.find? (fun p => decide (p.1 = k)) with _ | p
  · obtain ⟨m, hm⟩ : ∃ m, c.cap = m + 1 := ⟨c.cap - 1, by omega⟩
    simp [LruCache.get_or_insert, hfind, hm, List.take_succ_cons,
      List.find?_cons]
  · have hp := List.find?_some hfind
    simp [LruCache.get_or_insert, hfind, List.find?_cons, hp]

/-- C3: two get_or_create calls with field-by-field equal descriptors (for
the render-pass cache: equal color attachments; for the framebuffer cache:
equal render pass, attachments and extent) return handles to the same
underlying driver object. -/
theorem cache_identity_structural_equal
    (c : LruCache RenderPassKey) (hc : 1 ≤ c.cap)
    (d1 d2 : RenderPassDesc)
    (h12 : d1.color_attachments = d2.color_attachments)
    (cf : LruCache FramebufferKey) (hcf : 1 ≤ cf.cap)
    (f1 f2 : FramebufferDesc)
    (hfa : f1.attachments = f2.attachments)
    (hfr : f1.render_pass = f2.render_pass)
    (hfe : f1.extent = f2.extent) :
    (RenderPassCache.get_or_create
        (RenderPassCache.get_or_create c d1).2 d2).1 =
      (RenderPassCache.get_or_create c d1).1 ∧
    (FramebufferCache.get_or_create
        (FramebufferCache.get_or_create cf f1).2 f2).1 =
      (FramebufferCache.get_or_create cf f1).1 := by
  have hk : RenderPassKey.fromDesc d2 = RenderPassKey.fromDesc d1 := by
    simp [RenderPassKey.fromDesc, h12]
  have hkf : FramebufferKey.fromDesc f2 = FramebufferKey.fromDesc f1 := by
    simp [FramebufferKey.fromDesc, hfa, hfr, hfe]
  constructor
  · simp only [RenderPassCache.get_or_create, hk]
    exact LruCache.get_or_insert_twice c hc _
  · simp only [FramebufferCache.get_or_create, hkf]
    exact LruCache.get_or_insert_twice cf hcf _

/-- C3 witness: concrete empty caches of the device's capacity 16 and
field-by-field equal descriptors give the same object in both caches. -/
theorem cache_identity_structural_equal_witness :
    (RenderPassCache.get_or_create
        (RenderPassCache.get_or_create
          (LruCache.new RenderPassKey RENDER_PASS_CACHE_SIZE)
          { color_attachments := [some { format := 44, layout := 2 }] }).2
        { color_attachments := [some { format := 44, layout := 2 }] }).1 =
      (RenderPassCache.get_or_create
        (LruCache.new RenderPassKey RENDER_PASS_CACHE_SIZE)
        { color_attachments := [some { format := 44, layout := 2 }] }).1 ∧
    (FramebufferCache.get_or_create
        (FramebufferCache.get_or_create
          (LruCache.new FramebufferKey FRAMEBUFFER_CACHE_SIZE)
          { render_pass := 9, attachments := [4, 5],
            extent := { width := 800, height := 600 } }).2
        { render_pass := 9, attachments := [4, 5],
          extent := { width := 800, height := 600 } }).1 =
      (FramebufferCache.get_or_create
        (LruCache.new FramebufferKey FRAMEBUFFER_CACHE_SIZE)
        { render_pass := 9, attachments := [4, 5],
          extent := { width := 800, height := 600 } }).1 :=
  cache_identity_structural_equal
    (LruCache.new RenderPassKey RENDER_PASS_CACHE_SIZE) (by decide)
    { color_attachments := [some { format := 44, layout := 2 }] }
    { color_attachments := [some { format := 44, layout := 2 }] } rfl
    (LruCache.new FramebufferKey FRAMEBUFFER_CACHE_SIZE) (by decide)
    { render_pass := 9, attachments := [4, 5],
      extent := { width := 800, height := 600 } }
    { render_pass := 9, attachments := [4, 5],
      extent := { width := 800, height := 600 } } rfl rfl rfl

/-- Helper: a key absent from the entry list is never found by the
structural-equality scan. -/
theorem find?_entries_none {K : Type} [DecidableEq K]
    (entries : List (K × Nat)) (k : K)
    (h : k ∉ entries.map Prod.fst) :
    entries.find? (fun p => decide (p.1 = k)) = none := by
  rw [List.find?_eq_none]
  intro p hp
  simp only [decide_eq_true_eq]
  intro hk
  exact h (List.mem_map.mpr ⟨p, hp, hk⟩)

/-- Helper: get_or_insert on a key not present in the cache takes the miss
path: it returns the fresh object id and inserts at the MRU head,
truncating to capacity. -/
theorem get_or_insert_miss {K : Type} [DecidableEq K] (c : LruCache K)
    (k : K) (h : k ∉ c.entries.map Prod.fst) :
    c.get_or_insert k =
      (c.nextId,
       { entries := ((k, c.nextId) :: c.entries).take c.cap,
         cap := c.cap, nextId := c.nextId + 1 }) := by
  simp [LruCache.get_or_insert, find?_entries_none c.entries k h]

/-- Helper: truncating to n after appending to an already-truncated list
equals truncating the full append. -/
theorem take_append_take {α : Type} (A B : List α) (n : Nat) :
    (A ++ B.take n).take n = (A ++ B).take n := by
  rw [List.take_append_eq_append_take, List.take_append_eq_append_take,
    List.take_take]
  congr 1
  rw [Nat.min_eq_left (Nat.sub_le n A.length)]

/-- Helper (C4 workhorse): running get_or_insert over pairwise distinct
keys all absent from the cache makes every call a miss: the returned
object ids are the consecutive fresh ids, and the final entry list is the
reversed key/id sequence stacked on the old entries, truncated to
capacity (evicting from the LRU tail). -/
theorem getAll_fresh {K : Type} [DecidableEq K] (ks : List K) :
    ∀ c : LruCache K, ks.Nodup →
      (∀ k ∈ ks, k ∉ c.entries.map Prod.fst) →
      c.entries.length ≤ c.cap →
      (c.getAll ks).1 = List.range' c.nextId ks.length ∧
      (c.getAll ks).2.entries =
        ((ks.zip (List.range' c.nextId ks.length)).reverse ++
          c.entries).take c.cap ∧
      (c.getAll ks).2.nextId = c.nextId + ks.length ∧
      (c.getAll ks).2.cap = c.cap := by
  induction ks with
  | nil =>
      intro c _ _ hlen
      refine ⟨rfl, ?_, rfl, rfl⟩
      simp [LruCache.getAll, List.take_of_length_le hlen]
  | cons k rest ih =>
      intro c hnd hfresh hlen
      have hk1 : k ∉ c.entries.map Prod.fst :=
        hfresh k (List.mem_cons_self k rest)
      have hmiss := get_or_insert_miss c k hk1
      have hknr : k ∉ rest := (List.nodup_cons.mp hnd).1
      have hndr : rest.Nodup := (List.nodup_cons.mp hnd).2
      have hfresh' : ∀ k' ∈ rest,
          k' ∉ (((k, c.nextId) :: c.entries).take c.cap).map Prod.fst := by
        intro k' hk' hmem
        rcases List.mem_map.mp hmem with ⟨p, hp, hpk⟩
        have hp' : p ∈ (k, c.nextId) :: c.entries :=
          List.take_subset _ _ hp
        rcases List.mem_cons.mp hp' with hhead | htail
        · apply hknr
          have hk'eq : k = k' := by
            rw [hhead] at hpk
            simpa using hpk
          rwa [hk'eq]
        · exact hfresh k' (List.mem_cons_of_mem k hk')
            (hpk ▸ List.mem_map_of_mem Prod.fst htail)
      have hlen' :
          (((k, c.nextId) :: c.entries).take c.cap).length ≤ c.cap := by
        simp [List.length_take]
      obtain ⟨hids, hentries, hnext, hcap⟩ :=
        ih { entries := ((k, c.nextId) :: c.entries).take c.cap,
             cap := c.cap, nextId := c.nextId + 1 } hndr hfresh' hlen'
      simp only [LruCache.getAll, hmiss]
      refine ⟨?_, ?_, ?_, ?_⟩
      · rw [hids, List.length_cons, List.range'_succ]
      · rw [hentries, take_append_take, List.length_cons,
          List.range'_succ, List.zip_cons_cons, List.reverse_cons,
          List.append_assoc, List.singleton_append]
      · rw [hnext, List.length_cons]
        show c.nextId + 1 + rest.length = c.nextId + (rest.length + 1)
        omega
      · exact hcap

/-- Helper: in an entry list with pairwise distinct keys, the scan for a
resident key returns exactly its stored entry. -/
theorem find?_entry_of_nodup {K : Type} [DecidableEq K]
    (entries : List (K × Nat)) (k : K) (v : Nat)
    (hnd : (entries.map Prod.fst).Nodup) (hmem : (k, v) ∈ entries) :
    entries.find? (fun p => decide (p.1 = k)) = some (k, v) := by
  induction entries with
  | nil => simp at hmem
  | cons p rest ih =>
      rw [List.map_cons, List.nodup_cons] at hnd
      by_cases hk : p.1 = k
      · have hpv : p = (k, v) := by
          rcases List.mem_cons.mp hmem with hh | ht
          · exact hh.symm
          · exact absurd (hk ▸ List.mem_map_of_mem Prod.fst ht) hnd.1
        rw [List.find?_cons, decide_eq_true hk, hpv]
      · have ht : (k, v) ∈ rest := by
          rcases List.mem_cons.mp hmem with hh | ht
          · exact absurd (by rw [← hh]) hk
          · exact ht
        rw [List.find?_cons, decide_eq_false hk]
        exact ih hnd.2 ht

/-- Helper (C4 scenario at the key level): seventeen pairwise distinct
keys pushed through an empty capacity-16 LRU cache: all are misses with
consecutive ids 0..16, the first key's entry is the one evicted, the
second key is a hit afterwards (returning its original object, creating
nothing), the first key misses afterwards (a brand-new object id 17), and
the evicted object 0 stays referenced by an outstanding handle until that
handle is released. -/
theorem lru_eviction_scenario_keys {K : Type} [DecidableEq K]
    (k1 k2 : K) (krest : List K)
    (hnd : (k1 :: k2 :: krest).Nodup) (hlen : krest.length = 15) :
    ((LruCache.new K 16).getAll (k1 :: k2 :: krest)).1 =
      List.range' 0 17 ∧
    k1 ∉ (((LruCache.new K 16).getAll
      (k1 :: k2 :: krest)).2).entries.map Prod.fst ∧
    (∀ k ∈ k2 :: krest, k ∈ (((LruCache.new K 16).getAll
      (k1 :: k2 :: krest)).2).entries.map Prod.fst) ∧
    ((((LruCache.new K 16).getAll
      (k1 :: k2 :: krest)).2).get_or_insert k2).1 = 1 ∧
    ((((LruCache.new K 16).getAll
      (k1 :: k2 :: krest)).2).get_or_insert k2).2.nextId =
      (((LruCache.new K 16).getAll (k1 :: k2 :: krest)).2).nextId ∧
    (((((LruCache.new K 16).getAll
      (k1 :: k2 :: krest)).2).get_or_insert k2).2.get_or_insert k1).1 =
      17 ∧
    17 ∉ ((LruCache.new K 16).getAll (k1 :: k2 :: krest)).1 ∧
    refCount (((LruCache.new K 16).getAll (k1 :: k2 :: krest)).2) [0] 0 =
      1 ∧
    refCount (((LruCache.new K 16).getAll (k1 :: k2 :: krest)).2) [] 0 =
      0 := by
  have hkslen : (k1 :: k2 :: krest).length = 17 := by simp [hlen]
  obtain ⟨hids, hentries, hnext, -⟩ :=
    getAll_fresh (k1 :: k2 :: krest) (LruCache.new K 16) hnd
      (by intro k _ hk; simp [LruCache.new] at hk)
      (by simp [LruCache.new])
  rw [hkslen] at hids hentries hnext
  have hzero : (LruCache.new K 16).nextId = 0 := rfl
  rw [hzero] at hids hentries hnext
  have hrng : List.range' 0 17 = 0 :: 1 :: List.range' 2 15 := by decide
  have hE : (((LruCache.new K 16).getAll (k1 :: k2 :: krest)).2).entries =
      ((k2, 1) :: krest.zip (List.range' 2 15)).reverse := by
    rw [hentries]
    show (((k1 :: k2 :: krest).zip
      (List.range' 0 17)).reverse ++ []).take 16 = _
    have hzlen : ((k1 :: k2 :: krest).zip (List.range' 0 17)).length =
        17 := by
      rw [List.length_zip, hkslen]
      simp
    rw [List.append_nil, List.take_reverse, hzlen, hrng,
      List.zip_cons_cons, List.zip_cons_cons]
    norm_num
  have hMF : (((LruCache.new K 16).getAll
      (k1 :: k2 :: krest)).2).entries.map Prod.fst =
      (k2 :: krest).reverse := by
    rw [hE, List.map_reverse, List.map_cons,
      List.map_fst_zip krest (List.range' 2 15) (by simp [hlen])]
  have hnd2 : k1 ∉ k2 :: krest := (List.nodup_cons.mp hnd).1
  have hndr : (k2 :: krest).Nodup := (List.nodup_cons.mp hnd).2
  have hk1not : k1 ∉ (((LruCache.new K 16).getAll
      (k1 :: k2 :: krest)).2).entries.map Prod.fst := by
    rw [hMF, List.mem_reverse]
    exact hnd2
  have hnext17 : (((LruCache.new K 16).getAll
      (k1 :: k2 :: krest)).2).nextId = 17 := by
    rw [hnext]
  have hfind2 : (((LruCache.new K 16).getAll
      (k1 :: k2 :: krest)).2).entries.find?
        (fun p => decide (p.1 = k2)) = some (k2, 1) := by
    apply find?_entry_of_nodup
    · rw [hMF]
      exact List.nodup_reverse.mpr hndr
    · rw [hE, List.mem_reverse]
      exact List.mem_cons_self _ _
  have hholds : (((LruCache.new K 16).getAll
      (k1 :: k2 :: krest)).2).holds 0 = false := by
    rw [LruCache.holds, hE, List.any_reverse, List.any_eq_false]
    intro p hp
    rcases List.mem_cons.mp hp with hh | ht
    · rw [hh]
      simp
    · rcases p with ⟨a, b⟩
      have hb := (List.of_mem_zip ht).2
      rw [List.mem_range'_1] at hb
      simp only [decide_eq_true_eq]
      omega
  refine ⟨hids, hk1not, ?_, ?_, ?_, ?_, ?_, ?_, ?_⟩
  · intro k hk
    rw [hMF, List.mem_reverse]
    exact hk
  · simp [LruCache.get_or_insert, hfind2]
  · simp [LruCache.get_or_insert, hfind2]
  · have hk1not2 : k1 ∉ ((((LruCache.new K 16).getAll
        (k1 :: k2 :: krest)).2).get_or_insert k2).2.entries.map
        Prod.fst := by
      simp only [LruCache.get_or_insert, hfind2]
      rw [List.map_cons, List.mem_cons]
      rintro (hh | ht)
      · apply hnd2
        rw [hh]
        exact List.mem_cons_self k2 krest
      · rcases List.mem_map.mp ht with ⟨p, hp, hpk⟩
        exact hk1not (List.mem_map.mpr
          ⟨p, List.eraseP_subset _ hp, hpk⟩)
    rw [get_or_insert_miss _ _ hk1not2]
    show ((((LruCache.new K 16).getAll
      (k1 :: k2 :: krest)).2).get_or_insert k2).2.nextId = 17
    simp only [LruCache.get_or_insert, hfind2]
    exact hnext17
  · rw [hids]
    decide
  · rw [refCount, hholds]
    rfl
  · rw [refCount, hholds]
    rfl

/-- C4: a render-pass cache of the device's capacity 16 receiving
get_or_create for 17 pairwise structurally distinct descriptors D1..D17 in
order constructs 17 fresh objects (ids 0..16) and, after the 17th call,
has evicted exactly the least-recently-used entry D1 while retaining
D2..D17; a subsequent get_or_create(D2) is a cache hit returning the
existing object (id 1) and constructing nothing, and a following
get_or_create(D1) is a cache miss constructing a new object (id 17,
distinct from every previously returned handle); a handle to D1's object
(id 0) obtained before the eviction still keeps the object referenced
after it, and only releasing that last handle drops the reference count
to zero. -/
theorem render_pass_cache_eviction_scenario
    (d1 d2 : RenderPassDesc) (drest : List RenderPassDesc)
    (hnd : ((d1 :: d2 :: drest).map RenderPassKey.fromDesc).Nodup)
    (hlen : drest.length = 15) :
    (RenderPassCache.getAll
      (LruCache.new RenderPassKey RENDER_PASS_CACHE_SIZE)
      (d1 :: d2 :: drest)).1 = List.range' 0 17 ∧
    RenderPassKey.fromDesc d1 ∉
      ((RenderPassCache.getAll
        (LruCache.new RenderPassKey RENDER_PASS_CACHE_SIZE)
        (d1 :: d2 :: drest)).2).entries.map Prod.fst ∧
    (∀ d ∈ d2 :: drest, RenderPassKey.fromDesc d ∈
      ((RenderPassCache.getAll
        (LruCache.new RenderPassKey RENDER_PASS_CACHE_SIZE)
        (d1 :: d2 :: drest)).2).entries.map Prod.fst) ∧
    (RenderPassCache.get_or_create
      ((RenderPassCache.getAll
        (LruCache.new RenderPassKey RENDER_PASS_CACHE_SIZE)
        (d1 :: d2 :: drest)).2) d2).1 = 1 ∧
    (RenderPassCache.get_or_create
      ((RenderPassCache.getAll
        (LruCache.new RenderPassKey RENDER_PASS_CACHE_SIZE)
        (d1 :: d2 :: drest)).2) d2).2.nextId =
      ((RenderPassCache.getAll
        (LruCache.new RenderPassKey RENDER_PASS_CACHE_SIZE)
        (d1 :: d2 :: drest)).2).nextId ∧
    (RenderPassCache.get_or_create
      (RenderPassCache.get_or_create
        ((RenderPassCache.getAll
          (LruCache.new RenderPassKey RENDER_PASS_CACHE_SIZE)
          (d1 :: d2 :: drest)).2) d2).2 d1).1 = 17 ∧
    17 ∉ (RenderPassCache.getAll
      (LruCache.new RenderPassKey RENDER_PASS_CACHE_SIZE)
      (d1 :: d2 :: drest)).1 ∧
    refCount ((RenderPassCache.getAll
      (LruCache.new RenderPassKey RENDER_PASS_CACHE_SIZE)
      (d1 :: d2 :: drest)).2) [0] 0 = 1 ∧
    refCount ((RenderPassCache.getAll
      (LruCache.new RenderPassKey RENDER_PASS_CACHE_SIZE)
      (d1 :: d2 :: drest)).2) [] 0 = 0 := by
  have h := lru_eviction_scenario_keys (RenderPassKey.fromDesc d1)
    (RenderPassKey.fromDesc d2) (drest.map RenderPassKey.fromDesc)
    hnd (by simp [hlen])
  refine ⟨h.1, h.2.1, ?_, h.2.2.2.1, h.2.2.2.2.1, h.2.2.2.2.2.1,
    h.2.2.2.2.2.2.1, h.2.2.2.2.2.2.2.1, h.2.2.2.2.2.2.2.2⟩
  intro d hd
  refine h.2.2.1 (RenderPassKey.fromDesc d) ?_
  rcases List.mem_cons.mp hd with hh | ht
  · rw [hh]
    exact List.mem_cons_self _ _
  · exact List.mem_cons_of_mem _ (List.mem_map_of_mem _ ht)

/-- C4 witness: seventeen concrete pairwise distinct descriptors through an
empty capacity-16 cache: re-requesting D2 afterwards hits (object 1),
re-requesting D1 constructs object 17, and the held handle on D1's evicted
object 0 keeps its reference count at one. -/
theorem render_pass_cache_eviction_scenario_witness :
    (RenderPassCache.get_or_create
      (RenderPassCache.getAll
        (LruCache.new RenderPassKey RENDER_PASS_CACHE_SIZE)
        (sampleDesc 1 :: sampleDesc 2 ::
          (List.range' 3 15).map sampleDesc)).2 (sampleDesc 2)).1 = 1 ∧
    (RenderPassCache.get_or_create
      (RenderPassCache.get_or_create
        (RenderPassCache.getAll
          (LruCache.new RenderPassKey RENDER_PASS_CACHE_SIZE)
          (sampleDesc 1 :: sampleDesc 2 ::
            (List.range' 3 15).map sampleDesc)).2 (sampleDesc 2)).2
      (sampleDesc 1)).1 = 17 ∧
    refCount
      (RenderPassCache.getAll
        (LruCache.new RenderPassKey RENDER_PASS_CACHE_SIZE)
        (sampleDesc 1 :: sampleDesc 2 ::
          (List.range' 3 15).map sampleDesc)).2 [0] 0 = 1 :=
  ⟨(render_pass_cache_eviction_scenario (sampleDesc 1) (sampleDesc 2)
      ((List.range' 3 15).map sampleDesc) (by decide)
      (by decide)).2.2.2.1,
   (render_pass_cache_eviction_scenario (sampleDesc 1) (sampleDesc 2)
      ((List.range' 3 15).map sampleDesc) (by decide)
      (by decide)).2.2.2.2.2.1,
   (render_pass_cache_eviction_scenario (sampleDesc 1) (sampleDesc 2)
      ((List.range' 3 15).map sampleDesc) (by decide)
      (by decide)).2.2.2.2.2.2.2.1⟩

end Blick
